import Mathlib

/-!
Verification of the request-authorization pipeline of the project/task
management REST API (Express + Sequelize, SQLite dialect).

Shallow embedding of:
  - src/utils/response.js      (Response Formatter)
  - src/middlewares/auth.js    (Authentication Gate, Authorization Gate)
  - src/controllers/authController.js    (register)
  - src/controllers/projectController.js (getProjects, deleteProject)
  - src/controllers/taskController.js    (getProjectTasks, createTask)
  - src/models/*.js            (User, Project, Task, cascade relation)

JavaScript values that matter to the embedded code paths are modelled by
`JSValue` (for formatter payloads) and `Option`-typed record fields (for
absent / undefined body and query fields). Persistent storage is a `Store`
of in-memory lists; a storage call that can throw is modelled as
`Except Unit`. Machine clock (timestamp field of the envelope) and the
serialization to JSON/XML text are outside every claim and are not part of
the envelope model.
-/

namespace RestApi

/-- A JavaScript value as it reaches the Response Formatter data slot.
Numbers are modelled as integers; the claims only concern 0 among numbers. -/
inductive JSValue where
  | jsNull
  | jsUndefined
  | jsBool (b : Bool)
  | jsNum (n : Int)
  | jsStr (s : String)
  deriving Repr, DecidableEq

/-- JavaScript truthiness for the modelled values: null, undefined, false,
0 and the empty string are falsy, everything else truthy. -/
def JSValue.truthy : JSValue → Bool
  | .jsNull => false
  | .jsUndefined => false
  | .jsBool b => b
  | .jsNum n => n != 0
  | .jsStr s => s != ""

/-- Translation of getDefaultMessage in src/utils/response.js: the fixed
switch from status code to default message (strings exactly as in the code). -/
def getDefaultMessage (statusCode : Nat) : String :=
  match statusCode with
  | 200 => "OK"
  | 201 => "Recurso creado correctamente"
  | 400 => "Solicitud incorrecta"
  | 401 => "No autorizado"
  | 403 => "Acceso prohibido"
  | 404 => "Recurso no encontrado"
  | 500 => "Error interno del servidor"
  | _ => "Operación completada"

/-- The uniform response envelope built by formatResponse in
src/utils/response.js. The timestamp field (wall clock) and the chosen
serialization (json or xml) are not modelled: no claim concerns them. -/
structure Envelope where
  success : Bool
  code : Nat
  message : String
  data : JSValue
  deriving Repr, DecidableEq

/-- Translation of formatResponse in src/utils/response.js restricted to
envelope construction:
success is statusCode in [200,300); message is the argument when truthy,
else the default table; data is the argument when truthy, else null
(JavaScript data || null). The message argument is `none` when the caller
omits it (the JS default is null). -/
def formatResponse (statusCode : Nat) (data : JSValue) (message : Option String) : Envelope :=
  { success := decide (200 ≤ statusCode ∧ statusCode < 300)
    code := statusCode
    message :=
      match message with
      | some m => if m == "" then getDefaultMessage statusCode else m
      | none => getDefaultMessage statusCode
    data := if data.truthy then data else JSValue.jsNull }

/-- C6 (claim as stated) is refuted here; this table follows the claim
words, for comparison with getDefaultMessage taken from the source. -/
def claimedDefaultMessage (statusCode : Nat) : String :=
  match statusCode with
  | 200 => "OK"
  | 201 => "Created"
  | 400 => "Bad Request"
  | 401 => "Unauthorized"
  | 403 => "Forbidden"
  | 404 => "Not Found"
  | 500 => "Internal Server Error"
  | _ => "Operation completed"

/-- C6 counterexample: the claim says a formatter call with no explicit
message and status 201 yields the message "Created"; the code yields
"Recurso creado correctamente". The claimed English table disagrees with
the source table at 201 (and at every entry except 200). -/
theorem C6_counterexample :
    (formatResponse 201 JSValue.jsNull none).message ≠ claimedDefaultMessage 201 := by
  decide

/-- C6 amended: with no explicit message the envelope message comes from the
fixed lookup table of getDefaultMessage keyed by statusCode, whose entries
are 200→"OK", 201→"Recurso creado correctamente", 400→"Solicitud
incorrecta", 401→"No autorizado", 403→"Acceso prohibido", 404→"Recurso no
encontrado", 500→"Error interno del servidor", and every unmapped code
yields the generic "Operación completada". -/
theorem C6_default_message_table :
    (∀ code data, (formatResponse code data none).message = getDefaultMessage code)
    ∧ getDefaultMessage 200 = "OK"
    ∧ getDefaultMessage 201 = "Recurso creado correctamente"
    ∧ getDefaultMessage 400 = "Solicitud incorrecta"
    ∧ getDefaultMessage 401 = "No autorizado"
    ∧ getDefaultMessage 403 = "Acceso prohibido"
    ∧ getDefaultMessage 404 = "Recurso no encontrado"
    ∧ getDefaultMessage 500 = "Error interno del servidor"
    ∧ (∀ code, code ∉ [200, 201, 400, 401, 403, 404, 500] →
        getDefaultMessage code = "Operación completada") := by
  refine ⟨fun code data => rfl, rfl, rfl, rfl, rfl, rfl, rfl, rfl, ?_⟩
  intro code hcode
  simp only [List.mem_cons, List.not_mem_nil, or_false, not_or] at hcode
  unfold getDefaultMessage
  split <;> simp_all

/-- C6 witness: the amended table evaluated at the mapped code 201 and at
the unmapped code 418. -/
theorem C6_default_message_table_witness :
    (formatResponse 201 JSValue.jsNull none).message = "Recurso creado correctamente"
    ∧ getDefaultMessage 418 = "Operación completada" := by
  refine ⟨?_, ?_⟩
  · have h := C6_default_message_table.1 201 JSValue.jsNull
    rw [h]
    exact C6_default_message_table.2.2.1
  · exact C6_default_message_table.2.2.2.2.2.2.2.2 418 (by decide)

/-- C10: a falsy data argument (null, undefined, 0, the empty string,
false) makes the envelope data slot null, so a falsy payload is
indistinguishable from no payload: the whole envelope equals the one built
with a null payload. -/
theorem C10_falsy_data_is_null (code : Nat) (msg : Option String) (d : JSValue)
    (h : d.truthy = false) :
    (formatResponse code d msg).data = JSValue.jsNull
    ∧ formatResponse code d msg = formatResponse code JSValue.jsNull msg := by
  constructor
  · simp [formatResponse, h]
  · simp [formatResponse, h]

/-- C10 witness: the legitimate payload 0 is falsy and its envelope is the
same envelope as the one carrying no payload at all. -/
theorem C10_falsy_data_is_null_witness :
    (formatResponse 200 (JSValue.jsNum 0) (some "ok")).data = JSValue.jsNull
    ∧ formatResponse 200 (JSValue.jsNum 0) (some "ok")
      = formatResponse 200 JSValue.jsNull (some "ok") :=
  C10_falsy_data_is_null 200 (some "ok") (JSValue.jsNum 0) (by decide)

/-! ## Data model (src/models/User.js, Project.js, Task.js)

The password column is hashed by a bcrypt hook and never read by the
embedded code paths (the hashing primitive is an external collaborator of
the system), so it is not part of the `User` record here. `createdAt`
stands for the row creation instant used by ORDER BY createdAt. -/

/-- A stored user row (src/models/User.js): role is the enum string admin
or user, active defaults to true. -/
structure User where
  id : Nat
  name : String
  email : String
  role : String
  active : Bool
  deriving Repr, DecidableEq

/-- A stored project row (src/models/Project.js). Dates other than the
creation instant play no role in any embedded path. -/
structure Project where
  id : Nat
  name : String
  status : String
  createdBy : Nat
  createdAt : Nat
  deriving Repr, DecidableEq

/-- A stored task row (src/models/Task.js): projectId is required,
assignedTo may be NULL. On the SQLite dialect configured in
src/config/database.js the ENUM columns status and priority are stored as
TEXT. -/
structure Task where
  id : Nat
  title : String
  status : String
  priority : String
  projectId : Nat
  assignedTo : Option Nat
  createdAt : Nat
  deriving Repr, DecidableEq

/-- The persistent storage state: the three tables. -/
structure Store where
  users : List User
  projects : List Project
  tasks : List Task
  deriving Repr, DecidableEq

/-- Model.findByPk on the users table. -/
def findUserByPk (users : List User) (uid : Nat) : Option User :=
  users.find? (fun u => u.id == uid)

/-- Model.findByPk on the projects table. -/
def findProjectByPk (projects : List Project) (pid : Nat) : Option Project :=
  projects.find? (fun p => p.id == pid)

/-! ## Authentication Gate (src/middlewares/auth.js, authenticate) -/

/-- The token payload built by generateToken in src/utils/jwt.js:
{id, email, role}. -/
structure TokenClaims where
  id : Nat
  email : String
  role : String
  deriving Repr, DecidableEq

/-- The identity summary attached to the request context (req.user). -/
structure Identity where
  id : Nat
  email : String
  role : String
  deriving Repr, DecidableEq

/-- Outcome of a middleware: either short-circuit with a formatted
response, or attach the identity and call next(). -/
inductive MWResult where
  | respond (e : Envelope)
  | next (user : Identity)
  deriving Repr, DecidableEq

/-- JavaScript String.prototype.split with a one-character separator,
by structural recursion over the character list. -/
def splitChars (sep : Char) : List Char → List (List Char)
  | [] => [[]]
  | c :: cs =>
      let rest := splitChars sep cs
      if c == sep then [] :: rest
      else
        match rest with
        | [] => [[c]]
        | r :: rs => (c :: r) :: rs

/-- JavaScript authHeader.split(sep) for a one-character sep. -/
def jsSplit (s : String) (sep : Char) : List String :=
  (splitChars sep s.toList).map (fun l => String.mk l)

/-- Translation of the authenticate middleware in src/middlewares/auth.js.
verifyToken (src/utils/jwt.js) returns the decoded claims or null and
never throws, so it is a pure parameter; the User.findByPk storage call
may throw (storage unavailable), so it is an Except-valued parameter; the
surrounding try/catch maps a throw to the 500 response. A missing header
and an empty-string header are both falsy in the JS check, as are a
missing and an empty second split component in the Bearer check. -/
def authenticate (verify : String → Option TokenClaims)
    (findUser : Nat → Except Unit (Option User))
    (authHeader : Option String) : MWResult :=
  if authHeader.getD "" == "" then
    .respond (formatResponse 401 .jsNull (some "No se proporcionó token de autenticación"))
  else
    let parts := jsSplit (authHeader.getD "") ' '
    let scheme := parts.getD 0 ""
    let token := parts.getD 1 ""
    if scheme != "Bearer" || token == "" then
      .respond (formatResponse 401 .jsNull (some "Formato de token inválido"))
    else
      match verify token with
      | none => .respond (formatResponse 401 .jsNull (some "Token inválido o expirado"))
      | some decoded =>
          match findUser decoded.id with
          | .error _ => .respond (formatResponse 500 .jsNull (some "Error en autenticación"))
          | .ok none =>
              .respond (formatResponse 401 .jsNull (some "Usuario no encontrado o inactivo"))
          | .ok (some user) =>
              if !user.active then
                .respond (formatResponse 401 .jsNull (some "Usuario no encontrado o inactivo"))
              else
                .next { id := user.id, email := user.email, role := user.role }

/-- A concrete verifier for witnesses: four known tokens, two of which
share subject id 1 while embedding different role and email claims. -/
def wVerify (t : String) : Option TokenClaims :=
  if t == "good" then some ⟨1, "tok@x.com", "admin"⟩
  else if t == "good2" then some ⟨1, "other@x.com", "user"⟩
  else if t == "frozen" then some ⟨2, "f@x.com", "user"⟩
  else if t == "ghost" then some ⟨9, "g@x.com", "user"⟩
  else none

/-- A concrete user store lookup for witnesses: user 1 active, user 2
inactive, nobody else. -/
def wFindUser (uid : Nat) : Except Unit (Option User) :=
  if uid == 1 then .ok (some ⟨1, "Live", "live@x.com", "user", true⟩)
  else if uid == 2 then .ok (some ⟨2, "Frozen", "f@x.com", "user", false⟩)
  else .ok none

/-- A storage lookup that throws, modelling an unavailable database. -/
def wFindUserDown (_ : Nat) : Except Unit (Option User) :=
  .error ()

/-- C1: the Authentication Gate applies its checks in the fixed order of
the source, the first failing check determining the response: falsy
Authorization header → 401 no-token; first split component not Bearer or
second component missing or empty → 401 bad-format; verifier reports the
token invalid → 401 invalid-or-expired; storage lookup throws → 500
generic authentication error; no stored user, or an inactive one → 401
user-not-found-or-inactive; otherwise the identity is attached and the
chain continues. -/
theorem C1_authentication_gate_order (verify : String → Option TokenClaims)
    (findUser : Nat → Except Unit (Option User)) (authHeader : Option String) :
    (authHeader.getD "" = "" →
      authenticate verify findUser authHeader =
        .respond (formatResponse 401 .jsNull (some "No se proporcionó token de autenticación")))
    ∧ (∀ header, authHeader = some header → header ≠ "" →
        ((jsSplit header ' ').getD 0 "" ≠ "Bearer" ∨ (jsSplit header ' ').getD 1 "" = "") →
        authenticate verify findUser authHeader =
          .respond (formatResponse 401 .jsNull (some "Formato de token inválido")))
    ∧ (∀ header tok, authHeader = some header → header ≠ "" →
        jsSplit header ' ' = ["Bearer", tok] → tok ≠ "" →
        verify tok = none →
        authenticate verify findUser authHeader =
          .respond (formatResponse 401 .jsNull (some "Token inválido o expirado")))
    ∧ (∀ header tok c, authHeader = some header → header ≠ "" →
        jsSplit header ' ' = ["Bearer", tok] → tok ≠ "" →
        verify tok = some c → findUser c.id = .error () →
        authenticate verify findUser authHeader =
          .respond (formatResponse 500 .jsNull (some "Error en autenticación")))
    ∧ (∀ header tok c, authHeader = some header → header ≠ "" →
        jsSplit header ' ' = ["Bearer", tok] → tok ≠ "" →
        verify tok = some c → findUser c.id = .ok none →
        authenticate verify findUser authHeader =
          .respond (formatResponse 401 .jsNull (some "Usuario no encontrado o inactivo")))
    ∧ (∀ header tok c u, authHeader = some header → header ≠ "" →
        jsSplit header ' ' = ["Bearer", tok] → tok ≠ "" →
        verify tok = some c → findUser c.id = .ok (some u) → u.active = false →
        authenticate verify findUser authHeader =
          .respond (formatResponse 401 .jsNull (some "Usuario no encontrado o inactivo")))
    ∧ (∀ header tok c u, authHeader = some header → header ≠ "" →
        jsSplit header ' ' = ["Bearer", tok] → tok ≠ "" →
        verify tok = some c → findUser c.id = .ok (some u) → u.active = true →
        authenticate verify findUser authHeader =
          .next { id := u.id, email := u.email, role := u.role }) := by
  refine ⟨?_, ?_, ?_, ?_, ?_, ?_, ?_⟩
  · intro h
    simp [authenticate, h]
  · rintro header rfl hne hbad
    rcases hbad with h | h <;>
      simp_all [authenticate]
  · rintro header tok rfl hne hsplit htok hv
    simp_all [authenticate]
  · rintro header tok c rfl hne hsplit htok hv hf
    simp_all [authenticate]
  · rintro header tok c rfl hne hsplit htok hv hf
    simp_all [authenticate]
  · rintro header tok c u rfl hne hsplit htok hv hf hact
    simp_all [authenticate]
  · rintro header tok c u rfl hne hsplit htok hv hf hact
    simp_all [authenticate]

/-- C1 witness: the gate evaluated on one concrete request per branch of
the order theorem, with a two-token verifier and a one-user store. -/
theorem C1_authentication_gate_order_witness :
    (authenticate wVerify wFindUser none =
      .respond (formatResponse 401 .jsNull (some "No se proporcionó token de autenticación")))
    ∧ (authenticate wVerify wFindUser (some "Basic good") =
      .respond (formatResponse 401 .jsNull (some "Formato de token inválido")))
    ∧ (authenticate wVerify wFindUser (some "Bearer bad") =
      .respond (formatResponse 401 .jsNull (some "Token inválido o expirado")))
    ∧ (authenticate wVerify wFindUserDown (some "Bearer good") =
      .respond (formatResponse 500 .jsNull (some "Error en autenticación")))
    ∧ (authenticate wVerify wFindUser (some "Bearer ghost") =
      .respond (formatResponse 401 .jsNull (some "Usuario no encontrado o inactivo")))
    ∧ (authenticate wVerify wFindUser (some "Bearer frozen") =
      .respond (formatResponse 401 .jsNull (some "Usuario no encontrado o inactivo")))
    ∧ (authenticate wVerify wFindUser (some "Bearer good") =
      .next { id := 1, email := "live@x.com", role := "user" }) := by
  refine ⟨?_, ?_, ?_, ?_, ?_, ?_, ?_⟩
  · exact (C1_authentication_gate_order wVerify wFindUser none).1 (by decide)
  · exact (C1_authentication_gate_order wVerify wFindUser (some "Basic good")).2.1
      "Basic good" rfl (by decide) (Or.inl (by decide))
  · exact (C1_authentication_gate_order wVerify wFindUser (some "Bearer bad")).2.2.1
      "Bearer bad" "bad" rfl (by decide) (by decide) (by decide) (by decide)
  · exact (C1_authentication_gate_order wVerify wFindUserDown (some "Bearer good")).2.2.2.1
      "Bearer good" "good" ⟨1, "tok@x.com", "admin"⟩ rfl (by decide) (by decide) (by decide)
      (by decide) rfl
  · exact (C1_authentication_gate_order wVerify wFindUser (some "Bearer ghost")).2.2.2.2.1
      "Bearer ghost" "ghost" ⟨9, "g@x.com", "user"⟩ rfl (by decide) (by decide) (by decide)
      (by decide) rfl
  · exact (C1_authentication_gate_order wVerify wFindUser (some "Bearer frozen")).2.2.2.2.2.1
      "Bearer frozen" "frozen" ⟨2, "f@x.com", "user"⟩ ⟨2, "Frozen", "f@x.com", "user", false⟩
      rfl (by decide) (by decide) (by decide) (by decide) rfl rfl
  · exact (C1_authentication_gate_order wVerify wFindUser (some "Bearer good")).2.2.2.2.2.2
      "Bearer good" "good" ⟨1, "tok@x.com", "admin"⟩ ⟨1, "Live", "live@x.com", "user", true⟩
      rfl (by decide) (by decide) (by decide) (by decide) rfl rfl

/-- C2: when the token verifies and the subject id resolves to an active
stored user, the attached identity is the stored record, not the token
claims, and two tokens with the same subject id but any embedded role or
email yield the same attached identity and hence the same downstream
decisions. -/
theorem C2_identity_from_stored_record (verify : String → Option TokenClaims)
    (findUser : Nat → Except Unit (Option User))
    (hdr1 hdr2 tok1 tok2 : String) (c1 c2 : TokenClaims) (u : User)
    (hne1 : hdr1 ≠ "") (hs1 : jsSplit hdr1 ' ' = ["Bearer", tok1]) (ht1 : tok1 ≠ "")
    (hv1 : verify tok1 = some c1)
    (hne2 : hdr2 ≠ "") (hs2 : jsSplit hdr2 ' ' = ["Bearer", tok2]) (ht2 : tok2 ≠ "")
    (hv2 : verify tok2 = some c2)
    (hid : c1.id = c2.id)
    (hu : findUser c1.id = .ok (some u)) (hact : u.active = true) :
    authenticate verify findUser (some hdr1) =
      .next { id := u.id, email := u.email, role := u.role }
    ∧ authenticate verify findUser (some hdr1) = authenticate verify findUser (some hdr2) := by
  have h1 : authenticate verify findUser (some hdr1) =
      .next { id := u.id, email := u.email, role := u.role } := by
    simp_all [authenticate]
  have h2 : authenticate verify findUser (some hdr2) =
      .next { id := u.id, email := u.email, role := u.role } := by
    rw [hid] at hu
    simp_all [authenticate]
  exact ⟨h1, h1.trans h2.symm⟩

/-- C2 witness: two tokens for subject 1 embedding different role and
email; both runs attach the stored identity of user 1. -/
theorem C2_identity_from_stored_record_witness :
    authenticate wVerify wFindUser (some "Bearer good") =
      .next { id := 1, email := "live@x.com", role := "user" }
    ∧ authenticate wVerify wFindUser (some "Bearer good") =
        authenticate wVerify wFindUser (some "Bearer good2") :=
  C2_identity_from_stored_record wVerify wFindUser
    "Bearer good" "Bearer good2" "good" "good2"
    ⟨1, "tok@x.com", "admin"⟩ ⟨1, "other@x.com", "user"⟩
    ⟨1, "Live", "live@x.com", "user", true⟩
    (by decide) (by decide) (by decide) (by decide)
    (by decide) (by decide) (by decide) (by decide)
    (by decide) rfl rfl

/-! ## Authorization Gate (src/middlewares/auth.js, isProjectOwnerOrAdmin) -/

/-- Outcome of the project-authorization middleware: short-circuit with a
formatted response, or attach the loaded project and call next(). -/
inductive AuthzResult where
  | respond (e : Envelope)
  | next (project : Project)
  deriving Repr, DecidableEq

/-- Translation of isProjectOwnerOrAdmin in src/middlewares/auth.js. The
project id is req.params.projectId || req.params.id || req.body.projectId;
an absent field is undefined, hence falsy, and the stored autoincrement
ids are positive, so a present id is truthy. Project.findByPk may throw
(storage unavailable), and the surrounding catch maps a throw to the 500
response. The caller is the identity attached by authenticate. -/
def isProjectOwnerOrAdmin (caller : Identity)
    (paramsProjectId paramsId bodyProjectId : Option Nat)
    (findProject : Nat → Except Unit (Option Project)) : AuthzResult :=
  match paramsProjectId.orElse (fun _ => paramsId.orElse (fun _ => bodyProjectId)) with
  | none => .respond (formatResponse 400 .jsNull (some "ID de proyecto no proporcionado"))
  | some projectId =>
      match findProject projectId with
      | .error _ => .respond (formatResponse 500 .jsNull (some "Error al verificar permisos"))
      | .ok none => .respond (formatResponse 404 .jsNull (some "Proyecto no encontrado"))
      | .ok (some project) =>
          if project.createdBy == caller.id || caller.role == "admin" then
            .next project
          else
            .respond (formatResponse 403 .jsNull
              (some "No tiene permiso para modificar este proyecto"))

/-- C3: the Authorization Gate resolves the project id from the route
parameters with a body fallback and responds 400 when none is present,
404 when no such project exists, attaches the loaded project and
continues when the caller created it or is an admin, responds 403
otherwise, and maps an unexpected storage failure to the generic 500
permissions error. -/
theorem C3_authorization_gate (caller : Identity)
    (paramsProjectId paramsId bodyProjectId : Option Nat)
    (findProject : Nat → Except Unit (Option Project)) :
    (paramsProjectId = none → paramsId = none → bodyProjectId = none →
      isProjectOwnerOrAdmin caller paramsProjectId paramsId bodyProjectId findProject =
        .respond (formatResponse 400 .jsNull (some "ID de proyecto no proporcionado")))
    ∧ (∀ pid,
        paramsProjectId.orElse (fun _ => paramsId.orElse (fun _ => bodyProjectId)) = some pid →
        findProject pid = .error () →
        isProjectOwnerOrAdmin caller paramsProjectId paramsId bodyProjectId findProject =
          .respond (formatResponse 500 .jsNull (some "Error al verificar permisos")))
    ∧ (∀ pid,
        paramsProjectId.orElse (fun _ => paramsId.orElse (fun _ => bodyProjectId)) = some pid →
        findProject pid = .ok none →
        isProjectOwnerOrAdmin caller paramsProjectId paramsId bodyProjectId findProject =
          .respond (formatResponse 404 .jsNull (some "Proyecto no encontrado")))
    ∧ (∀ pid project,
        paramsProjectId.orElse (fun _ => paramsId.orElse (fun _ => bodyProjectId)) = some pid →
        findProject pid = .ok (some project) →
        (project.createdBy = caller.id ∨ caller.role = "admin") →
        isProjectOwnerOrAdmin caller paramsProjectId paramsId bodyProjectId findProject =
          .next project)
    ∧ (∀ pid project,
        paramsProjectId.orElse (fun _ => paramsId.orElse (fun _ => bodyProjectId)) = some pid →
        findProject pid = .ok (some project) →
        project.createdBy ≠ caller.id → caller.role ≠ "admin" →
        isProjectOwnerOrAdmin caller paramsProjectId paramsId bodyProjectId findProject =
          .respond (formatResponse 403 .jsNull
            (some "No tiene permiso para modificar este proyecto"))) := by
  refine ⟨?_, ?_, ?_, ?_, ?_⟩
  · rintro rfl rfl rfl
    simp [isProjectOwnerOrAdmin, Option.orElse]
  · intro pid hres hf
    simp [isProjectOwnerOrAdmin, hres, hf]
  · intro pid hres hf
    simp [isProjectOwnerOrAdmin, hres, hf]
  · intro pid project hres hf hok
    rcases hok with h | h <;> simp [isProjectOwnerOrAdmin, hres, hf, h]
  · intro pid project hres hf hown hrole
    simp [isProjectOwnerOrAdmin, hres, hf, hown, hrole]

/-- A concrete project lookup for witnesses: project 5 created by user 1,
project 6 created by user 2, nothing else. -/
def wFindProject (pid : Nat) : Except Unit (Option Project) :=
  if pid == 5 then .ok (some ⟨5, "Alpha", "active", 1, 10⟩)
  else if pid == 6 then .ok (some ⟨6, "Beta", "active", 2, 11⟩)
  else .ok none

/-- A project lookup that throws, modelling an unavailable database. -/
def wFindProjectDown (_ : Nat) : Except Unit (Option Project) :=
  .error ()

/-- C3 witness: the gate evaluated on one concrete request per branch,
with the owner caller user 1 (non-admin). -/
theorem C3_authorization_gate_witness :
    (isProjectOwnerOrAdmin ⟨1, "a@x.com", "user"⟩ none none none wFindProject =
      .respond (formatResponse 400 .jsNull (some "ID de proyecto no proporcionado")))
    ∧ (isProjectOwnerOrAdmin ⟨1, "a@x.com", "user"⟩ (some 5) none none wFindProjectDown =
      .respond (formatResponse 500 .jsNull (some "Error al verificar permisos")))
    ∧ (isProjectOwnerOrAdmin ⟨1, "a@x.com", "user"⟩ (some 7) none none wFindProject =
      .respond (formatResponse 404 .jsNull (some "Proyecto no encontrado")))
    ∧ (isProjectOwnerOrAdmin ⟨1, "a@x.com", "user"⟩ none (some 5) none wFindProject =
      .next ⟨5, "Alpha", "active", 1, 10⟩)
    ∧ (isProjectOwnerOrAdmin ⟨1, "a@x.com", "user"⟩ none none (some 6) wFindProject =
      .respond (formatResponse 403 .jsNull
        (some "No tiene permiso para modificar este proyecto"))) := by
  refine ⟨?_, ?_, ?_, ?_, ?_⟩
  · exact (C3_authorization_gate ⟨1, "a@x.com", "user"⟩ none none none wFindProject).1
      rfl rfl rfl
  · exact (C3_authorization_gate ⟨1, "a@x.com", "user"⟩ (some 5) none none wFindProjectDown).2.1
      5 rfl rfl
  · exact (C3_authorization_gate ⟨1, "a@x.com", "user"⟩ (some 7) none none wFindProject).2.2.1
      7 rfl rfl
  · exact (C3_authorization_gate ⟨1, "a@x.com", "user"⟩ none (some 5) none wFindProject).2.2.2.1
      5 ⟨5, "Alpha", "active", 1, 10⟩ rfl rfl (Or.inl rfl)
  · exact (C3_authorization_gate ⟨1, "a@x.com", "user"⟩ none none (some 6) wFindProject).2.2.2.2
      6 ⟨6, "Beta", "active", 2, 11⟩ rfl rfl (by decide) (by decide)

/-! ## Resource handlers

Controllers respond through res.formatResponse(code, data, message); every
call passes an explicit message, so the default-message table is never
consulted here, and the payload is carried in typed form. The try/catch
500 branches of the controllers fire only when a storage call throws;
they are modelled exactly where a claim concerns them (getProjects, whose
500 arises from query generation itself). -/

/-- The typed payload a controller hands to res.formatResponse. -/
inductive CtrlData where
  | noData
  | projectRows (l : List Project)
  | taskRows (l : List Task)
  | taskRow (t : Task)
  | deletedId (id : Nat)
  | userRow (id : Nat) (name email role : String)
  deriving Repr, DecidableEq

/-- A controller response: status code, explicit message, typed payload. -/
structure CtrlResp where
  code : Nat
  message : String
  data : CtrlData
  deriving Repr, DecidableEq

/-- Autoincrement id for a new task row. -/
def nextTaskId (tasks : List Task) : Nat :=
  tasks.foldl (fun m t => max m t.id) 0 + 1

/-- Autoincrement id for a new user row. -/
def nextUserId (users : List User) : Nat :=
  users.foldl (fun m u => max m u.id) 0 + 1

/-- Row deletion triggered by project.destroy(): under the association
Project.hasMany(Task, onDelete CASCADE) declared in src/models/index.js,
deleting a project row also deletes every task row whose projectId
references it. -/
def destroyProjectCascade (s : Store) (pid : Nat) : Store :=
  { s with
    projects := s.projects.filter (fun p => p.id != pid)
    tasks := s.tasks.filter (fun t => t.projectId != pid) }

/-- Translation of deleteProject in src/controllers/projectController.js:
load by the id route parameter, 404 when absent, owner-or-admin check,
then destroy (cascading) and respond 200 with the deleted id. -/
def deleteProject (caller : Identity) (idParam : Nat) (s : Store) : CtrlResp × Store :=
  match findProjectByPk s.projects idParam with
  | none => ({ code := 404, message := "Proyecto no encontrado", data := .noData }, s)
  | some project =>
      if project.createdBy != caller.id && caller.role != "admin" then
        ({ code := 403, message := "No tiene permisos para eliminar este proyecto",
           data := .noData }, s)
      else
        ({ code := 200, message := "Proyecto eliminado correctamente",
           data := .deletedId idParam },
         destroyProjectCascade s idParam)

/-- C4: after every successful delete-project operation (status 200), no
task whose projectId equals the deleted project id remains in storage:
the cascade removes them all and leaves no orphan. -/
theorem C4_delete_project_cascades (caller : Identity) (idParam : Nat) (s : Store)
    (project : Project)
    (hfind : findProjectByPk s.projects idParam = some project)
    (hperm : project.createdBy = caller.id ∨ caller.role = "admin") :
    (deleteProject caller idParam s).1.code = 200
    ∧ ((deleteProject caller idParam s).2.tasks.all (fun t => t.projectId != idParam)) = true
    ∧ ∀ t ∈ (deleteProject caller idParam s).2.tasks, t.projectId ≠ idParam := by
  have hperm2 : (project.createdBy != caller.id && caller.role != "admin") = false := by
    rcases hperm with h | h <;> simp [h]
  refine ⟨?_, ?_, ?_⟩
  · simp [deleteProject, hfind, hperm2]
  · simp [deleteProject, hfind, hperm2, destroyProjectCascade, List.all_eq_true,
      List.mem_filter]
    try tauto
  · intro t ht
    simp [deleteProject, hfind, hperm2, destroyProjectCascade, List.mem_filter] at ht
    try tauto

/-- A concrete store for the delete witness: one user owning project 1
with two tasks, and an unrelated project 2 with one task. -/
def wStoreDelete : Store :=
  { users := [⟨1, "Alice", "a@x.com", "user", true⟩]
    projects := [⟨1, "Alpha", "active", 1, 10⟩, ⟨2, "Beta", "active", 2, 11⟩]
    tasks := [⟨1, "T1", "pending", "high", 1, none, 1⟩,
              ⟨2, "T2", "pending", "low", 1, some 1, 2⟩,
              ⟨3, "T3", "pending", "medium", 2, none, 3⟩] }

/-- C4 witness: the owner deletes project 1; the surviving task table
holds no task referencing project 1. -/
theorem C4_delete_project_cascades_witness :
    (deleteProject ⟨1, "a@x.com", "user"⟩ 1 wStoreDelete).1.code = 200
    ∧ ((deleteProject ⟨1, "a@x.com", "user"⟩ 1 wStoreDelete).2.tasks.all
      (fun t => t.projectId != 1)) = true :=
  have h := C4_delete_project_cascades ⟨1, "a@x.com", "user"⟩ 1 wStoreDelete
    ⟨1, "Alpha", "active", 1, 10⟩ rfl (Or.inl rfl)
  ⟨h.1, h.2.1⟩

/-- JavaScript v || dflt for an optional string field: the default steps
in when the field is absent or the empty string. -/
def jsOrDefault (v : Option String) (dflt : String) : String :=
  if v.getD "" == "" then dflt else v.getD ""

/-- Translation of createTask in src/controllers/taskController.js for the
route POST /proyectos/:projectId/tareas: required-title check, project
existence, owner-or-admin check, assignee existence when assignedTo is
truthy, then Task.create with the model defaults (status pending,
priority medium) and the len [2,100] validation of the title column,
whose Sequelize failure the catch turns into a 400. description and
dueDate are free-form nullable columns never read by any embedded path
and are omitted. `now` is the creation instant recorded in createdAt. -/
def createTask (caller : Identity) (projectId : Nat)
    (title status priority : Option String) (assignedTo : Option Nat)
    (now : Nat) (s : Store) : CtrlResp × Store :=
  if title.getD "" == "" then
    ({ code := 400, message := "El título de la tarea es requerido", data := .noData }, s)
  else
    match findProjectByPk s.projects projectId with
    | none => ({ code := 404, message := "Proyecto no encontrado", data := .noData }, s)
    | some project =>
        if project.createdBy != caller.id && caller.role != "admin" then
          ({ code := 403, message := "No tiene permisos para añadir tareas a este proyecto",
             data := .noData }, s)
        else if assignedTo.isSome && (findUserByPk s.users (assignedTo.getD 0)).isNone then
          ({ code := 404, message := "Usuario asignado no encontrado", data := .noData }, s)
        else if !(2 ≤ (title.getD "").length && (title.getD "").length ≤ 100) then
          ({ code := 400, message := "Validation len on title failed", data := .noData }, s)
        else
          let task : Task :=
            { id := nextTaskId s.tasks
              title := title.getD ""
              status := jsOrDefault status "pending"
              priority := jsOrDefault priority "medium"
              projectId := projectId
              assignedTo := assignedTo
              createdAt := now }
          ({ code := 201, message := "Tarea creada correctamente", data := .taskRow task },
           { s with tasks := s.tasks ++ [task] })

/-- C8: a create-task request that passes the earlier checks (title
present, project exists, caller owner or admin) but whose assignedTo id
matches no stored user responds 404 with the assigned-user-not-found
message, and the stored task table is unchanged. -/
theorem C8_dangling_assignee (caller : Identity) (projectId : Nat)
    (title status priority : Option String) (uid now : Nat) (s : Store) (project : Project)
    (htitle : title.getD "" ≠ "")
    (hproj : findProjectByPk s.projects projectId = some project)
    (hperm : project.createdBy = caller.id ∨ caller.role = "admin")
    (huser : findUserByPk s.users uid = none) :
    (createTask caller projectId title status priority (some uid) now s).1 =
      { code := 404, message := "Usuario asignado no encontrado", data := .noData }
    ∧ (createTask caller projectId title status priority (some uid) now s).2 = s := by
  have hperm2 : (project.createdBy != caller.id && caller.role != "admin") = false := by
    rcases hperm with h | h <;> simp [h]
  constructor <;> simp [createTask, htitle, hproj, hperm2, huser]

/-- C8 witness: user 1 creates a task in their project 1 assigned to the
absent user 99; the call returns the 404 and the store is untouched. -/
theorem C8_dangling_assignee_witness :
    (createTask ⟨1, "a@x.com", "user"⟩ 1 (some "New task") none none (some 99) 7
        wStoreDelete).1 =
      { code := 404, message := "Usuario asignado no encontrado", data := .noData }
    ∧ (createTask ⟨1, "a@x.com", "user"⟩ 1 (some "New task") none none (some 99) 7
        wStoreDelete).2 = wStoreDelete :=
  C8_dangling_assignee ⟨1, "a@x.com", "user"⟩ 1 (some "New task") none none 99 7
    wStoreDelete ⟨1, "Alpha", "active", 1, 10⟩
    (by decide) rfl (Or.inl rfl) rfl

/-! ## Registration (src/controllers/authController.js, register) -/

/-- Translation of the password rule shared by src/models/User.js and the
explicit check in register: only ASCII letters and digits, at least 8
characters, and at least one lowercase letter, one uppercase letter and
one digit (the anchored regex with three lookaheads). -/
def validPassword (p : String) : Bool :=
  decide (8 ≤ p.length)
  && p.toList.all (fun c => c.isAlpha || c.isDigit)
  && p.toList.any Char.isLower
  && p.toList.any Char.isUpper
  && p.toList.any Char.isDigit

/-- The len [2,100] column validation of User.name (src/models/User.js). -/
def lenValid (s : String) : Bool :=
  decide (2 ≤ s.length) && decide (s.length ≤ 100)

/-- Translation of register in src/controllers/authController.js. Body
fields are absent-or-string. An absent email makes the findOne where
clause carry undefined, which Sequelize rejects; the catch maps that to
the 500 branch. After the duplicate-email and password checks,
User.create runs the column validations of src/models/User.js (name not
null and len [2,100], email isEmail — the validator.js predicate is the
external parameter isEmail — and the password regex, which the earlier
explicit check already guarantees); a validation failure becomes a 400
with the joined Sequelize messages. On success the new row gets the
autoincrement id, role admin exactly when the body role is the string
admin (role === admin ? admin : user), and active defaults to true. -/
def register (name email password roleField : Option String)
    (isEmail : String → Bool) (s : Store) : CtrlResp × Store :=
  match email with
  | none =>
      ({ code := 500, message := "Error al registrar usuario", data := .noData }, s)
  | some em =>
      match s.users.find? (fun u => u.email == em) with
      | some _ =>
          ({ code := 400, message := "El correo electrónico ya está registrado",
             data := .noData }, s)
      | none =>
          if !(validPassword (password.getD "")) then
            ({ code := 400,
               message := "La contraseña debe tener al menos 8 caracteres, una mayúscula, una minúscula y un número",
               data := .noData }, s)
          else
            let errors :=
              (match name with
               | none => ["User.name cannot be null"]
               | some n => if !(lenValid n) then ["Validation len on name failed"] else [])
              ++ (if !(isEmail em) then ["Validation isEmail on email failed"] else [])
              ++ (if !(validPassword (password.getD "")) then
                    ["Validation is on password failed"] else [])
            if errors != [] then
              ({ code := 400, message := String.intercalate ", " errors,
                 data := .noData }, s)
            else
              let user : User :=
                { id := nextUserId s.users
                  name := name.getD ""
                  email := em
                  role := if roleField == some "admin" then "admin" else "user"
                  active := true }
              ({ code := 201, message := "Usuario registrado correctamente",
                 data := .userRow user.id user.name user.email user.role },
               { s with users := s.users ++ [user] })

/-- C9: an unauthenticated registration whose checks pass persists a user
whose role is admin exactly when the body role field is the string admin,
and user for any other value or when the field is absent; so any client
can mint an admin identity by sending role=admin. -/
theorem C9_registration_role (n em pw : String) (roleField : Option String)
    (isEmail : String → Bool) (s : Store)
    (hfree : s.users.find? (fun u => u.email == em) = none)
    (hname : lenValid n = true)
    (hmail : isEmail em = true)
    (hpw : validPassword pw = true) :
    (register (some n) (some em) (some pw) roleField isEmail s).1.code = 201
    ∧ (register (some n) (some em) (some pw) roleField isEmail s).2.users =
        s.users ++ [{ id := nextUserId s.users, name := n, email := em
                      role := if roleField == some "admin" then "admin" else "user"
                      active := true }]
    ∧ ((if roleField == some "admin" then "admin" else "user") = "admin"
        ↔ roleField = some "admin") := by
  refine ⟨?_, ?_, ?_⟩
  · simp [register, hfree, hname, hmail, hpw]
  · simp [register, hfree, hname, hmail, hpw]
  · by_cases h : roleField = some "admin"
    · simp [h]
    · have hb : (roleField == some "admin") = false := by
        cases roleField with
        | none => rfl
        | some r =>
            simp only [Option.some.injEq] at h ⊢
            simp [h]
      simp [hb, h]

/-- C9 witness: a fresh store; registering with role=admin persists an
admin identity, registering with role absent persists a user identity. -/
theorem C9_registration_role_witness :
    (register (some "Mallory") (some "m@x.com") (some "Passw0rd") (some "admin")
        (fun e => e == "m@x.com") { users := [], projects := [], tasks := [] }).2.users =
      [{ id := 1, name := "Mallory", email := "m@x.com", role := "admin", active := true }]
    ∧ (register (some "Bob") (some "m@x.com") (some "Passw0rd") none
        (fun e => e == "m@x.com") { users := [], projects := [], tasks := [] }).2.users =
      [{ id := 1, name := "Bob", email := "m@x.com", role := "user", active := true }] := by
  constructor
  · have h := (C9_registration_role "Mallory" "m@x.com" "Passw0rd" (some "admin")
      (fun e => e == "m@x.com") { users := [], projects := [], tasks := [] }
      rfl (by decide) (by decide) (by decide)).2.1
    simpa using h
  · have h := (C9_registration_role "Bob" "m@x.com" "Passw0rd" none
      (fun e => e == "m@x.com") { users := [], projects := [], tasks := [] }
      rfl (by decide) (by decide) (by decide)).2.1
    simpa using h

/-! ## Listing endpoints (projectController.getProjects,
taskController.getProjectTasks) -/

/-- Insertion of an element into a sorted list: x goes before the first
element y with before x y. -/
def insertSorted {α : Type} (before : α → α → Bool) (x : α) : List α → List α
  | [] => [x]
  | y :: ys => if before x y then x :: y :: ys else y :: insertSorted before x ys

/-- Insertion sort, the model of a SQL ORDER BY with the given ordering. -/
def sortByList {α : Type} (before : α → α → Bool) (l : List α) : List α :=
  l.foldr (insertSorted before) []

/-- A value assigned to a key of a Sequelize where object: a real value,
or JavaScript undefined. -/
inductive WhereVal (α : Type) where
  | undef
  | val (a : α)
  deriving Repr, DecidableEq

/-- The where object built by getProjects: the createdBy key is always
assigned (undefined for an admin caller); the status and name-LIKE keys
are added only when the query parameter is present and valid. -/
structure ProjectWhere where
  createdBy : WhereVal Nat
  status : Option String
  nameLike : Option String
  deriving Repr, DecidableEq

/-- SQLite LIKE with the pattern wrapped in percent signs:
ASCII-case-insensitive substring test. The needle is never empty where
this is used, since an empty search string is falsy and the key is not
added. -/
def likeContains (hay needle : String) : Bool :=
  (hay.toLower.splitOn needle.toLower).length != 1

/-- Sequelize v6 findAll on the projects table. Query generation
(whereItemQuery) throws on a where entry whose value is JavaScript
undefined — WHERE parameter has invalid undefined value — and the throw
reaches the calling controller; otherwise the rows satisfying every
present condition are returned, ordered createdAt DESC (newest first). -/
def findAllProjects (w : ProjectWhere) (rows : List Project) :
    Except Unit (List Project) :=
  match w.createdBy with
  | .undef => .error ()
  | .val uid =>
      .ok (sortByList (fun a b => decide (b.createdAt ≤ a.createdAt))
        (rows.filter (fun p =>
          p.createdBy == uid
          && (match w.status with | none => true | some st => p.status == st)
          && (match w.nameLike with | none => true | some q => likeContains p.name q))))

/-- Translation of getProjects in src/controllers/projectController.js:
builds the where conditions — createdBy is undefined when the caller role
is admin, otherwise the caller id; a present valid status adds an exact
condition and a present non-empty search adds a LIKE condition — then
queries; a throw from the query lands in the catch, the 500 branch. -/
def getProjects (caller : Identity) (statusQ searchQ : Option String)
    (s : Store) : CtrlResp :=
  let w : ProjectWhere :=
    { createdBy := if caller.role == "admin" then .undef else .val caller.id
      status :=
        match statusQ with
        | some st =>
            if st != "" && (st == "active" || st == "completed" || st == "canceled")
            then some st else none
        | none => none
      nameLike :=
        match searchQ with
        | some q => if q != "" then some q else none
        | none => none }
  match findAllProjects w s.projects with
  | .error _ => { code := 500, message := "Error al obtener proyectos", data := .noData }
  | .ok rows =>
      { code := 200, message := "Proyectos obtenidos correctamente",
        data := .projectRows rows }

/-- The store for the listing theorems: one project each for users 1 and
2, and an admin user 7. -/
def wStoreList : Store :=
  { users := [⟨1, "Alice", "a@x.com", "user", true⟩,
              ⟨2, "Bob", "b@x.com", "user", true⟩,
              ⟨7, "Root", "r@x.com", "admin", true⟩]
    projects := [⟨1, "Alpha", "active", 1, 10⟩, ⟨2, "Beta", "active", 2, 11⟩]
    tasks := [] }

/-- C5 at the failing input: the admin caller makes getProjects assign
undefined to the createdBy where key, the query generator throws, and the
admin receives the 500 envelope instead of every project; a non-admin
caller does receive exactly their own projects. -/
theorem C5_admin_listing_fails :
    getProjects ⟨7, "r@x.com", "admin"⟩ none none wStoreList =
      { code := 500, message := "Error al obtener proyectos", data := .noData }
    ∧ getProjects ⟨1, "a@x.com", "user"⟩ none none wStoreList =
      { code := 200, message := "Proyectos obtenidos correctamente",
        data := .projectRows [⟨1, "Alpha", "active", 1, 10⟩] } :=
  ⟨rfl, rfl⟩

/-- Code-point comparison of character lists: the SQLite BINARY collation
on stored text (UTF-8 byte order coincides with code-point order). -/
def charListLtB : List Char → List Char → Bool
  | [], [] => false
  | [], _ :: _ => true
  | _ :: _, [] => false
  | a :: as, b :: bs =>
      if a.toNat < b.toNat then true
      else if b.toNat < a.toNat then false
      else charListLtB as bs

/-- BINARY-collation order on strings. -/
def strLtB (a b : String) : Bool := charListLtB a.toList b.toList

/-- ORDER BY priority DESC, createdAt DESC as executed on the SQLite
dialect of src/config/database.js: the ENUM column priority is stored as
TEXT there, so DESC on it is descending byte order of the priority
strings; ties break by createdAt descending (newest first). -/
def taskBefore (a b : Task) : Bool :=
  if a.priority == b.priority then decide (b.createdAt ≤ a.createdAt)
  else strLtB b.priority a.priority

/-- Translation of getProjectTasks in src/controllers/taskController.js:
project existence, owner-or-admin check, optional valid-status,
valid-priority and assignedTo filters on the tasks of the project, then
findAll ordered by priority DESC, createdAt DESC. -/
def getProjectTasks (caller : Identity) (projectId : Nat)
    (statusQ priorityQ : Option String) (assignedToQ : Option Nat)
    (s : Store) : CtrlResp :=
  match findProjectByPk s.projects projectId with
  | none => { code := 404, message := "Proyecto no encontrado", data := .noData }
  | some project =>
      if project.createdBy != caller.id && caller.role != "admin" then
        { code := 403, message := "No tiene permisos para ver las tareas de este proyecto",
          data := .noData }
      else
        let rows := s.tasks.filter (fun t =>
          t.projectId == projectId
          && (match statusQ with
              | some st =>
                  if st != "" && (st == "pending" || st == "in_progress"
                      || st == "completed" || st == "canceled")
                  then t.status == st else true
              | none => true)
          && (match priorityQ with
              | some pr =>
                  if pr != "" && (pr == "low" || pr == "medium" || pr == "high")
                  then t.priority == pr else true
              | none => true)
          && (match assignedToQ with
              | some uid => t.assignedTo == some uid
              | none => true))
        { code := 200, message := "Tareas obtenidas correctamente",
          data := .taskRows (sortByList taskBefore rows) }

/-- The store for the task-order theorem: project 1 of user 1 with one
high-priority task and two medium-priority tasks of different ages. -/
def wStoreTasks : Store :=
  { users := [⟨1, "Alice", "a@x.com", "user", true⟩]
    projects := [⟨1, "Alpha", "active", 1, 10⟩]
    tasks := [⟨1, "Urgent", "pending", "high", 1, none, 5⟩,
              ⟨2, "Med old", "pending", "medium", 1, none, 1⟩,
              ⟨3, "Med new", "pending", "medium", 1, none, 9⟩] }

/-- C7 at the failing input: on the configured SQLite dialect the TEXT
ordering puts both medium-priority tasks before the high-priority one
(medium over low over high in byte order), against the claimed
high-before-medium order; the newest-first tie-break within equal
priority does hold, as the two medium tasks show. -/
theorem C7_priority_order_at_failing_input :
    getProjectTasks ⟨1, "a@x.com", "user"⟩ 1 none none none wStoreTasks =
      { code := 200, message := "Tareas obtenidas correctamente",
        data := .taskRows [⟨3, "Med new", "pending", "medium", 1, none, 9⟩,
                           ⟨2, "Med old", "pending", "medium", 1, none, 1⟩,
                           ⟨1, "Urgent", "pending", "high", 1, none, 5⟩] } :=
  rfl

end RestApi
